import Mathlib

/-!
Verification of the MicroSuite energy-proportionality analysis scripts
(`parse_turbostat.py` and `analyze_results.py`).

The Python code is shallowly embedded: text is modelled as `List Char`,
Python `float` values as `ℚ` (exact arithmetic), Python `None`-able values
as `Option`, and code that can raise as `Option`-returning functions.
-/

/-- ASCII whitespace, as matched by Python `\s` and by `str.strip` /
`str.split()` on the inputs considered here. -/
def isSpace (c : Char) : Bool :=
  c = ' ' || c = '\t' || c = '\n' || c = '\r' || c = Char.ofNat 11 || c = Char.ofNat 12

/-- Python `str.strip()`: drop leading and trailing whitespace. -/
def strip (s : List Char) : List Char :=
  ((s.dropWhile isSpace).reverse.dropWhile isSpace).reverse

/-- Helper for `linesOf`: split on newline characters, keeping empty pieces,
like Python `str.split (by newline)`. -/
def linesAux : List Char → List Char → List (List Char)
  | [], acc => [acc.reverse]
  | c :: rest, acc =>
    if c = '\n' then acc.reverse :: linesAux rest []
    else linesAux rest (c :: acc)

/-- Python `s.split` on the newline separator. -/
def linesOf (s : List Char) : List (List Char) :=
  linesAux s []

/-- Helper for `tokens`: whitespace-run splitting with an accumulator. -/
def tokensAux : List Char → List Char → List (List Char)
  | [], acc => if acc.isEmpty then [] else [acc.reverse]
  | c :: rest, acc =>
    if isSpace c then
      if acc.isEmpty then tokensAux rest []
      else acc.reverse :: tokensAux rest []
    else tokensAux rest (c :: acc)

/-- Python `str.split()` with no argument: split on runs of whitespace,
discarding empty tokens. -/
def tokens (s : List Char) : List (List Char) :=
  tokensAux s []

/-- Boolean list-prefix test on characters. -/
def isPrefixL : List Char → List Char → Bool
  | [], _ => true
  | _ :: _, [] => false
  | a :: as, b :: bs => a = b && isPrefixL as bs

/-- Python substring containment `pat in s`. -/
def containsSub (pat : List Char) : List Char → Bool
  | [] => isPrefixL pat []
  | c :: rest => isPrefixL pat (c :: rest) || containsSub pat rest

/-- Python `str.lower()` (ASCII range, which covers all header tokens). -/
def lowerTok (t : List Char) : List Char :=
  t.map Char.toLower

/-- Decimal digit value of a character, if it is a digit. -/
def digitVal? (c : Char) : Option ℕ :=
  if '0' ≤ c ∧ c ≤ '9' then some (c.toNat - 48) else none

/-- Read a maximal run of decimal digits; returns the digits and the rest. -/
def spanDigits : List Char → List ℕ × List Char
  | [] => ([], [])
  | c :: rest =>
    match digitVal? c with
    | some d =>
      let (ds, r) := spanDigits rest
      (d :: ds, r)
    | none => ([], c :: rest)

/-- Natural number denoted by a digit list (most significant first). -/
def natOfDigits (ds : List ℕ) : ℕ :=
  ds.foldl (fun acc d => 10 * acc + d) 0

/-- Python `int(token)`: optional surrounding whitespace, optional sign,
then a nonempty digit string; `none` models a raised `ValueError`. -/
def parseInt (t : List Char) : Option ℤ :=
  let t := strip t
  match t with
  | '+' :: rest =>
    if rest.isEmpty ∨ (spanDigits rest).2 ≠ [] then none
    else some (natOfDigits (spanDigits rest).1)
  | '-' :: rest =>
    if rest.isEmpty ∨ (spanDigits rest).2 ≠ [] then none
    else some (-(natOfDigits (spanDigits rest).1 : ℤ))
  | _ =>
    if t.isEmpty ∨ (spanDigits t).2 ≠ [] then none
    else some (natOfDigits (spanDigits t).1)

/-- Mantissa and optional exponent of a decimal literal: `digits[.digits]`
with at least one digit overall, then optionally `e`/`E` and a signed
nonempty digit string.  Returns the rational value. -/
def parseMantissa (s : List Char) : Option ℚ :=
  let (ipart, r1) := spanDigits s
  match r1 with
  | '.' :: r2 =>
    let (fpart, r3) := spanDigits r2
    if ipart.isEmpty ∧ fpart.isEmpty then none
    else
      let base : ℚ := (natOfDigits ipart : ℚ) + (natOfDigits fpart : ℚ) / (10 ^ fpart.length : ℚ)
      match r3 with
      | [] => some base
      | e :: r4 =>
        if e = 'e' ∨ e = 'E' then
          match r4 with
          | '+' :: r5 =>
            if r5.isEmpty ∨ (spanDigits r5).2 ≠ [] then none
            else some (base * 10 ^ natOfDigits (spanDigits r5).1)
          | '-' :: r5 =>
            if r5.isEmpty ∨ (spanDigits r5).2 ≠ [] then none
            else some (base / 10 ^ natOfDigits (spanDigits r5).1)
          | _ =>
            if r4.isEmpty ∨ (spanDigits r4).2 ≠ [] then none
            else some (base * 10 ^ natOfDigits (spanDigits r4).1)
        else none
  | [] =>
    if ipart.isEmpty then none else some (natOfDigits ipart : ℚ)
  | e :: r2 =>
    if ipart.isEmpty then none
    else if e = 'e' ∨ e = 'E' then
      match r2 with
      | '+' :: r3 =>
        if r3.isEmpty ∨ (spanDigits r3).2 ≠ [] then none
        else some ((natOfDigits ipart : ℚ) * 10 ^ natOfDigits (spanDigits r3).1)
      | '-' :: r3 =>
        if r3.isEmpty ∨ (spanDigits r3).2 ≠ [] then none
        else some ((natOfDigits ipart : ℚ) / 10 ^ natOfDigits (spanDigits r3).1)
      | _ =>
        if r2.isEmpty ∨ (spanDigits r2).2 ≠ [] then none
        else some ((natOfDigits ipart : ℚ) * 10 ^ natOfDigits (spanDigits r2).1)
    else none

/-- Python `float(token)` restricted to finite decimal notation:
optional surrounding whitespace, optional sign, decimal mantissa with an
optional fractional part and optional exponent; `none` models a raised
`ValueError`. -/
def parseFloat (t : List Char) : Option ℚ :=
  let t := strip t
  match t with
  | '+' :: rest => parseMantissa rest
  | '-' :: rest => (parseMantissa rest).map Neg.neg
  | _ => parseMantissa t

/-- Arithmetic mean (Python `statistics.mean`; callers guard nonemptiness). -/
def meanQ (l : List ℚ) : ℚ :=
  l.sum / (l.length : ℚ)

/-- The square of Python `statistics.stdev`: the Bessel-corrected sample
variance, `Σ (x - mean)² / (n - 1)`. -/
def sampleVar (l : List ℚ) : ℚ :=
  (l.map (fun x => (x - meanQ l) ^ 2)).sum / ((l.length : ℚ) - 1)

/-- Python `statistics.stdev`: square root of the sample variance. -/
noncomputable def stdevQ (l : List ℚ) : ℝ :=
  Real.sqrt (sampleVar l)

/-- Population variance, `Σ (x - mean)² / n` (what the spec sentence about
a "(population) standard deviation" describes). -/
def popVar (l : List ℚ) : ℚ :=
  (l.map (fun x => (x - meanQ l) ^ 2)).sum / (l.length : ℚ)

/-- Population standard deviation. -/
noncomputable def popStdev (l : List ℚ) : ℝ :=
  Real.sqrt (popVar l)

/-- Python `max` over a nonempty list (0 for the never-reached empty case). -/
def listMax : List ℚ → ℚ
  | [] => 0
  | x :: xs => xs.foldl max x

/-- Python `min` over a nonempty list (0 for the never-reached empty case). -/
def listMin : List ℚ → ℚ
  | [] => 0
  | x :: xs => xs.foldl min x

/-- One turbostat measurement sample (`TurbostatSample` in
`parse_turbostat.py`); field order follows the dataclass. -/
structure TurbostatSample where
  timestamp : Option String
  cpu : ℤ
  avg_mhz : ℚ
  busy_percent : ℚ
  bzy_mhz : ℚ
  pkg_watt : Option ℚ
  core_watt : Option ℚ
  c1_percent : ℚ
  c6_percent : ℚ
  c7_percent : ℚ
deriving DecidableEq

/-- The `col_map` lookup: position of the column whose lowercased name is
`key`.  Python builds the dict left to right with `col_map[col.lower()] = i`,
so a duplicate name keeps the LAST position. -/
def colMapGet? (columns : List (List Char)) (key : List Char) : Option ℕ :=
  (columns.enum.reverse.find? (fun p => lowerTok p.2 == key)).map (fun p => p.1)

/-- `float(parts[col_map.get(key, d)]) if key in col_map else 0`: a numeric
field that defaults to 0 when the column is absent; `none` models a raised
`ValueError`/`IndexError` for the row. -/
def floatField (columns parts : List (List Char)) (key : List Char) : Option ℚ :=
  match colMapGet? columns key with
  | some i => (parts.get? i).bind parseFloat
  | none => some 0

/-- `float(parts[col_map.get(key, -1)]) if key in col_map else None`: an
optional power field; the outer `none` models a raised error, the inner
`Option` is the field's presence. -/
def optFloatField (columns parts : List (List Char)) (key : List Char) :
    Option (Option ℚ) :=
  match colMapGet? columns key with
  | some i => ((parts.get? i).bind parseFloat).map some
  | none => some none

/-- The field-extraction part of the `try` block: builds the sample from the
tokenized row once the CPU index is known.  Any failing field drops the row
(Python evaluates the constructor arguments in this order and the enclosing
`except` catches the first error). -/
def mkSampleFields (columns parts : List (List Char)) (cpu : ℤ) :
    Option TurbostatSample :=
  (floatField columns parts "avg_mhz".data).bind fun avg_mhz =>
  (floatField columns parts "busy%".data).bind fun busy_percent =>
  (floatField columns parts "bzy_mhz".data).bind fun bzy_mhz =>
  (optFloatField columns parts "pkgwatt".data).bind fun pkg_watt =>
  (optFloatField columns parts "corewatt".data).bind fun core_watt =>
  (floatField columns parts "c1%".data).bind fun c1_percent =>
  (floatField columns parts "c6%".data).bind fun c6_percent =>
  (floatField columns parts "c7%".data).bind fun c7_percent =>
  some ⟨none, cpu, avg_mhz, busy_percent, bzy_mhz, pkg_watt, core_watt,
        c1_percent, c6_percent, c7_percent⟩

/-- Processing of one data line of a block (the body of the inner `for` loop
of `parse_turbostat_log`): skip blank lines and `-`-prefixed separator
lines, skip short rows, skip placeholder-CPU rows, drop rows that raise. -/
def lineToSample (columns : List (List Char)) (line : List Char) :
    Option TurbostatSample :=
  if (strip line).isEmpty || isPrefixL "-".data line then none
  else if (tokens line).length < columns.length then none
  else
    match (tokens line).get? ((colMapGet? columns "cpu".data).getD 1) with
    | none => none
    | some ctok =>
      match (if ctok = "-".data then some (-1 : ℤ) else parseInt ctok) with
      | none => none
      | some cpu =>
        if cpu = -1 then none
        else mkSampleFields columns (tokens line) cpu

/-- The inner data-line loop: collect the samples of a block's rows in
order. -/
def rowsLoop (columns : List (List Char)) : List (List Char) → List TurbostatSample
  | [] => []
  | l :: rest =>
    match lineToSample columns l with
    | some s => s :: rowsLoop columns rest
    | none => rowsLoop columns rest

/-- Find the header line of a block: the first line containing both `Core`
and `CPU` as substrings; returns it with the following lines. -/
def findHeader : List (List Char) → Option (List Char × List (List Char))
  | [] => none
  | l :: rest =>
    if containsSub "Core".data l && containsSub "CPU".data l then some (l, rest)
    else findHeader rest

/-- Parse one section: strip it, split into lines, locate the header, and
run the data-line loop under that header's column mapping.  A section
without a header yields no samples. -/
def parseSection (sec : List Char) : List TurbostatSample :=
  match findHeader (linesOf (strip sec)) with
  | none => []
  | some (hdr, rest) => rowsLoop (tokens hdr) rest

/-- The lookahead of the splitting regex `\n(?=\s*Core\s+CPU)`: does the
text start (after any whitespace, which may span line breaks) with `Core`,
then at least one whitespace character, then `CPU`? -/
def lookaheadHdr (s : List Char) : Bool :=
  let s1 := s.dropWhile isSpace
  isPrefixL "Core".data s1 &&
    (match s1.drop 4 with
     | [] => false
     | c :: rest => isSpace c && isPrefixL "CPU".data ((c :: rest).dropWhile isSpace))

/-- `re.split(r'\n(?=\s*Core\s+CPU)', content)`: scan left to right and cut
at every newline whose remainder matches the lookahead; the newline is
consumed. -/
def splitAux : List Char → List Char → List (List Char)
  | [], acc => [acc.reverse]
  | c :: rest, acc =>
    if c = '\n' && lookaheadHdr rest then acc.reverse :: splitAux rest []
    else splitAux rest (c :: acc)

/-- The section list of `parse_turbostat_log`. -/
def splitSections (content : List Char) : List (List Char) :=
  splitAux content []

/-- The outer section loop, accumulating samples in file order. -/
def parseLoop : List (List Char) → List TurbostatSample → List TurbostatSample
  | [], acc => acc
  | sec :: rest, acc => parseLoop rest (acc ++ parseSection sec)

/-- `parse_turbostat_log`, applied to the text of the log file (the `open` /
`read` wrapper is I/O and out of scope). -/
def parse_turbostat_log (content : String) : List TurbostatSample :=
  parseLoop (splitSections content.data) []

/-- Join sections back with single newlines (what `re.split` removed). -/
def joinNl : List (List Char) → List Char
  | [] => []
  | [s] => s
  | s :: rest => s ++ '\n' :: joinNl rest

/-- Modelled from the spec's words for the block-splitting rule: a line that,
allowing leading whitespace, contains both a `Core` token and a `CPU` token
(whitespace-delimited words). -/
def isHdrLineSpec (l : List Char) : Bool :=
  (tokens l).contains "Core".data && (tokens l).contains "CPU".data

/-- Modelled from the spec's words: group the lines into blocks, starting a
new block at every line satisfying `isHdrLineSpec`. -/
def specBlocksAux : List (List Char) → List (List Char) → List (List (List Char))
  | [], acc => [acc.reverse]
  | l :: rest, acc =>
    if isHdrLineSpec l then acc.reverse :: specBlocksAux rest [l]
    else specBlocksAux rest (l :: acc)

/-- Modelled from the spec's words for C2: the parser that splits at every
line containing both a `Core` and a `CPU` token, then parses each block as
the code does.  Used only to compare against `parse_turbostat_log`. -/
def parse_spec_split (content : String) : List TurbostatSample :=
  ((specBlocksAux (linesOf content.data) []).map (fun b => parseSection (joinNl b))).flatten

/-- Per-CPU statistics entry of `analyze_samples` (`results['per_cpu'][cpu]`). -/
structure PerCpuStats where
  samples : ℕ
  c6_avg : ℚ
  c6_max : ℚ
  c6_min : ℚ
  busy_avg : ℚ
  freq_avg : ℚ

/-- Aggregate statistics of `analyze_samples` (`results['aggregate']`). -/
structure AggregateStats where
  c6_avg : ℚ
  c6_std : ℝ
  busy_avg : ℚ
  pkg_watt_avg : Option ℚ

/-- Successful analysis dictionary of `analyze_samples`. -/
structure AnalysisOk where
  total_samples : ℕ
  cpus : List ℤ
  per_cpu : List (ℤ × PerCpuStats)
  aggregate : AggregateStats

/-- An `analyze_samples` result: either the `{'error': ...}` dictionary or
the statistics dictionary. -/
inductive AnalysisResult where
  | err (msg : String)
  | ok (r : AnalysisOk)

/-- Whether an analysis result is the error dictionary. -/
def AnalysisResult.isErr : AnalysisResult → Bool
  | .err _ => true
  | .ok _ => false

/-- Insert a sample into the insertion-ordered `by_cpu` grouping (Python
dict semantics: keys keep first-appearance order, values append). -/
def addToGroup : List (ℤ × List TurbostatSample) → TurbostatSample →
    List (ℤ × List TurbostatSample)
  | [], s => [(s.cpu, [s])]
  | (c, g) :: rest, s =>
    if c = s.cpu then (c, g ++ [s]) :: rest
    else (c, g) :: addToGroup rest s

/-- The `by_cpu` dictionary of `analyze_samples`. -/
def groupByCpu (l : List TurbostatSample) : List (ℤ × List TurbostatSample) :=
  l.foldl addToGroup []

/-- The per-CPU statistics computed for one group of samples. -/
def perCpuStats (g : List TurbostatSample) : PerCpuStats :=
  let c6_values := g.map (fun s => s.c6_percent)
  let busy_values := g.map (fun s => s.busy_percent)
  let freq_values := (g.filter (fun s => 0 < s.avg_mhz)).map (fun s => s.avg_mhz)
  { samples := g.length
    c6_avg := meanQ c6_values
    c6_max := listMax c6_values
    c6_min := listMin c6_values
    busy_avg := meanQ busy_values
    freq_avg := if freq_values.isEmpty then 0 else meanQ freq_values }

/-- `analyze_samples(samples, cpu_filter)`.  Python's `if cpu_filter:` is
falsy both for `None` and for an empty list, so an empty allow-list applies
no filtering. -/
noncomputable def analyze_samples (samples : List TurbostatSample)
    (cpu_filter : Option (List ℤ)) : AnalysisResult :=
  let samples' :=
    match cpu_filter with
    | some f => if f.isEmpty then samples else samples.filter (fun s => f.contains s.cpu)
    | none => samples
  if samples'.isEmpty then .err "No samples matching filter"
  else
    let by_cpu := groupByCpu samples'
    let all_c6 := samples'.map (fun s => s.c6_percent)
    let all_busy := samples'.map (fun s => s.busy_percent)
    let all_pkg_watt := samples'.filterMap (fun s => s.pkg_watt)
    .ok
      { total_samples := samples'.length
        cpus := by_cpu.map (fun p => p.1)
        per_cpu := by_cpu.map (fun p => (p.1, perCpuStats p.2))
        aggregate :=
          { c6_avg := meanQ all_c6
            c6_std := if 1 < all_c6.length then stdevQ all_c6 else 0
            busy_avg := meanQ all_busy
            pkg_watt_avg := if all_pkg_watt.isEmpty then none else some (meanQ all_pkg_watt) } }

/-- The aggregate `c6_std` entry of an analysis result (0 for the error
dictionary, which has no such entry). -/
noncomputable def aggC6Std : AnalysisResult → ℝ
  | .err _ => 0
  | .ok r => r.aggregate.c6_std

/-- A CSV cell as handed to `csv.writer.writerow`: a Python int, float, or
string value. -/
inductive Cell where
  | int (n : ℤ)
  | float (q : ℚ)
  | str (s : String)
deriving DecidableEq

/-- The cell written for an optional power field: `s.pkg_watt or ''`, which
is the empty string when the field is `None` AND when it is the falsy
float `0.0`. -/
def pyOrCell (x : Option ℚ) : Cell :=
  match x with
  | none => .str ""
  | some v => if v = 0 then .str "" else .float v

/-- The data row written for one sample by `export_to_csv`, in header order
`cpu, avg_mhz, busy_percent, bzy_mhz, c1_percent, c6_percent, c7_percent,
pkg_watt, core_watt`. -/
def exportRow (s : TurbostatSample) : List Cell :=
  [.int s.cpu, .float s.avg_mhz, .float s.busy_percent, .float s.bzy_mhz,
   .float s.c1_percent, .float s.c6_percent, .float s.c7_percent,
   pyOrCell s.pkg_watt, pyOrCell s.core_watt]

/-- Reading a numeric cell back from the CSV: ints and floats round-trip,
an empty string is a missing value. -/
def cellNum? : Cell → Option ℚ
  | .int n => some (n : ℚ)
  | .float q => some q
  | .str _ => none

/-- Re-reading one exported CSV row as a sample: the seven mandatory
numeric columns must be present; the two power columns are optional. -/
def rereadSample : List Cell → Option TurbostatSample
  | [c0, a, b, z, x1, x6, x7, p, w] =>
    match c0, cellNum? a, cellNum? b, cellNum? z, cellNum? x1, cellNum? x6, cellNum? x7 with
    | .int cpu, some avg, some busy, some bzy, some v1, some v6, some v7 =>
      some ⟨none, cpu, avg, busy, bzy, cellNum? p, cellNum? w, v1, v6, v7⟩
    | _, _, _, _, _, _, _ => none
  | _ => none

/-- One experiment run (`ExperimentRun` in `analyze_results.py`). -/
structure ExperimentRun where
  run_id : ℤ
  checkpoint_ms : ℚ
  restore_ms : ℚ
  idle_duration_s : ℚ
  c6_residency_percent : ℚ
deriving DecidableEq

/-- Aggregated experiment results (`ExperimentResults`). -/
structure ExperimentResults where
  runs : List ExperimentRun
  baseline_c6 : Option ℚ
deriving DecidableEq

/-- `statistics.mean`, fallible: `none` models the `StatisticsError`
raised on an empty list. -/
def meanE (l : List ℚ) : Option ℚ :=
  if l.isEmpty then none else some (meanQ l)

/-- `ExperimentResults.avg_checkpoint_ms`: mean of the positive checkpoint
latencies, 0 when there are none. -/
def avg_checkpoint_ms (res : ExperimentResults) : ℚ :=
  let valid := (res.runs.map (fun r => r.checkpoint_ms)).filter (fun x => 0 < x)
  if valid.isEmpty then 0 else meanQ valid

/-- `ExperimentResults.avg_restore_ms`. -/
def avg_restore_ms (res : ExperimentResults) : ℚ :=
  let valid := (res.runs.map (fun r => r.restore_ms)).filter (fun x => 0 < x)
  if valid.isEmpty then 0 else meanQ valid

/-- `ExperimentResults.avg_c6_residency`: `statistics.mean` over ALL runs,
with no emptiness guard — it raises on an empty run list. -/
def avg_c6_residency (res : ExperimentResults) : Option ℚ :=
  meanE (res.runs.map (fun r => r.c6_residency_percent))

/-- `ExperimentResults.total_overhead_ms`. -/
def total_overhead_ms (res : ExperimentResults) : ℚ :=
  avg_checkpoint_ms res + avg_restore_ms res

/-- Python `x or 0` on an optional float: 0 when `x` is `None` and also
when it is the falsy value `0.0`. -/
def pyOr (x : Option ℚ) (d : ℚ) : ℚ :=
  match x with
  | none => d
  | some v => if v = 0 then d else v

/-- The dictionary computed by `calculate_energy_savings`.
`break_even_idle_s = none` models `float('inf')`. -/
structure EnergyMetrics where
  overhead_energy_j : ℚ
  idle_energy_saved_j : ℚ
  net_savings_j : ℚ
  net_savings_percent : ℚ
  break_even_idle_s : Option ℚ
  c6_improvement_percent : ℚ
deriving DecidableEq

/-- `calculate_energy_savings(results, server_power_w, c6_power_reduction)`.
The outer `Option` models the `StatisticsError` raised by
`results.avg_c6_residency` when the run list is empty. -/
def calculate_energy_savings (results : ExperimentResults)
    (server_power_w : ℚ) (c6_power_reduction : ℚ) : Option EnergyMetrics :=
  match avg_c6_residency results with
  | none => none
  | some avg_res =>
    let idle_duration_s :=
      match results.runs with
      | [] => 0
      | r :: _ => r.idle_duration_s
    let overhead_energy_j := server_power_w * (total_overhead_ms results / 1000)
    let c6_savings_fraction := avg_res / 100
    let idle_energy_saved_j :=
      server_power_w * c6_power_reduction * idle_duration_s * c6_savings_fraction
    let net_savings_j := idle_energy_saved_j - overhead_energy_j
    some
      { overhead_energy_j := overhead_energy_j
        idle_energy_saved_j := idle_energy_saved_j
        net_savings_j := net_savings_j
        net_savings_percent :=
          if 0 < idle_duration_s then net_savings_j / (server_power_w * idle_duration_s) * 100
          else 0
        break_even_idle_s :=
          if 0 < c6_savings_fraction then
            some ((total_overhead_ms results / 1000) / (c6_power_reduction * c6_savings_fraction))
          else none
        c6_improvement_percent := avg_res - pyOr results.baseline_c6 0 }

/-- The residency-improvement figure shown by `print_report`: it is printed
only inside the `if results.baseline_c6 is not None:` branch (and the
report reaches that branch only if `avg_c6_residency` did not raise);
`none` means no improvement figure appears in the printed report. -/
def printedImprovement (results : ExperimentResults) : Option ℚ :=
  match results.baseline_c6, avg_c6_residency results with
  | some b, some a => some (a - b)
  | _, _ => none

/-- A numeric CSV value of the summary export: finite, or `float('inf')`. -/
inductive CsvNum where
  | fin (q : ℚ)
  | inf
deriving DecidableEq

/-- The `(metric, value, unit)` rows written by `export_summary`; `none`
models the `StatisticsError` escaping from `calculate_energy_savings`
before anything is written. -/
def export_summary_rows (results : ExperimentResults) :
    Option (List (String × CsvNum × String)) :=
  match avg_c6_residency results, calculate_energy_savings results 100 (85 / 100) with
  | some avg_res, some energy =>
    some
      [("num_runs", .fin (results.runs.length : ℚ), "count"),
       ("avg_checkpoint_ms", .fin (avg_checkpoint_ms results), "ms"),
       ("avg_restore_ms", .fin (avg_restore_ms results), "ms"),
       ("total_overhead_ms", .fin (total_overhead_ms results), "ms"),
       ("avg_c6_residency", .fin avg_res, "%"),
       ("baseline_c6", .fin (pyOr results.baseline_c6 0), "%"),
       ("net_energy_savings_j", .fin energy.net_savings_j, "J"),
       ("net_energy_savings_percent", .fin energy.net_savings_percent, "%"),
       ("break_even_idle_s",
        (match energy.break_even_idle_s with
         | some q => .fin q
         | none => .inf), "s")]
  | _, _ => none

/-! ### Helper lemmas -/

theorem parseLoop_eq (secs : List (List Char)) (acc : List TurbostatSample) :
    parseLoop secs acc = acc ++ (secs.map parseSection).flatten := by
  induction secs generalizing acc with
  | nil => simp [parseLoop]
  | cons s rest ih => simp [parseLoop, ih]

theorem splitAux_ne_nil (s acc : List Char) : splitAux s acc ≠ [] := by
  cases s with
  | nil => simp [splitAux]
  | cons c rest =>
    rw [splitAux]
    split
    · simp
    · exact splitAux_ne_nil rest (c :: acc)

theorem joinNl_cons (a : List Char) (l : List (List Char)) (h : l ≠ []) :
    joinNl (a :: l) = a ++ '\n' :: joinNl l := by
  cases l with
  | nil => exact absurd rfl h
  | cons b bs => rfl

theorem joinNl_splitAux (s acc : List Char) :
    joinNl (splitAux s acc) = acc.reverse ++ s := by
  induction s generalizing acc with
  | nil => simp [splitAux, joinNl]
  | cons c rest ih =>
    rw [splitAux]
    by_cases h : (c = '\n' && lookaheadHdr rest) = true
    · rw [if_pos h]
      obtain ⟨hc, _⟩ := Bool.and_eq_true_iff.mp h
      rw [joinNl_cons _ _ (splitAux_ne_nil rest []), ih]
      simp [decide_eq_true_iff.mp hc]
    · rw [if_neg h, ih]
      simp

theorem mem_rowsLoop {columns : List (List Char)} {ls : List (List Char)}
    {s : TurbostatSample} (h : s ∈ rowsLoop columns ls) :
    ∃ l ∈ ls, lineToSample columns l = some s := by
  induction ls with
  | nil => simp [rowsLoop] at h
  | cons l rest ih =>
    rw [rowsLoop] at h
    cases hx : lineToSample columns l with
    | none =>
      rw [hx] at h
      obtain ⟨l', hl', hs'⟩ := ih h
      exact ⟨l', by simp [hl'], hs'⟩
    | some t =>
      rw [hx] at h
      rcases List.mem_cons.mp h with h | h
      · exact ⟨l, by simp, by rw [hx, h]⟩
      · obtain ⟨l', hl', hs'⟩ := ih h
        exact ⟨l', by simp [hl'], hs'⟩

theorem mkSampleFields_cpu {columns parts : List (List Char)} {cpu : ℤ}
    {s : TurbostatSample} (h : mkSampleFields columns parts cpu = some s) :
    s.cpu = cpu := by
  simp only [mkSampleFields, Option.bind_eq_some] at h
  obtain ⟨a1, -, a2, -, a3, -, a4, -, a5, -, a6, -, a7, -, a8, -, hs⟩ := h
  simp only [Option.some.injEq] at hs
  rw [← hs]

theorem lineToSample_cpu_ne {columns : List (List Char)} {line : List Char}
    {s : TurbostatSample} (h : lineToSample columns line = some s) :
    s.cpu ≠ -1 := by
  unfold lineToSample at h
  split at h
  · exact absurd h (by simp)
  · split at h
    · exact absurd h (by simp)
    · split at h
      · exact absurd h (by simp)
      · split at h
        · exact absurd h (by simp)
        · split at h
          · exact absurd h (by simp)
          · rename_i hcpu
            rw [mkSampleFields_cpu h]
            exact hcpu

theorem sum_const_list (l : List ℚ) (c : ℚ) (h : ∀ x ∈ l, x = c) :
    l.sum = l.length * c := by
  induction l with
  | nil => simp
  | cons a as ih =>
    have ha := h a (by simp)
    have his := ih (fun x hx => h x (by simp [hx]))
    simp [ha, his]
    ring

theorem meanQ_const (l : List ℚ) (c : ℚ) (h : ∀ x ∈ l, x = c) (hne : l ≠ []) :
    meanQ l = c := by
  have hlen0 : l.length ≠ 0 := by simpa using hne
  have hlen : (l.length : ℚ) ≠ 0 := Nat.cast_ne_zero.mpr hlen0
  rw [meanQ, sum_const_list l c h, mul_comm, mul_div_assoc, div_self hlen, mul_one]

theorem sampleVar_const (l : List ℚ) (c : ℚ) (h : ∀ x ∈ l, x = c) (hne : l ≠ []) :
    sampleVar l = 0 := by
  rw [sampleVar]
  have hz : ∀ y ∈ l.map (fun x => (x - meanQ l) ^ 2), y = 0 := by
    intro y hy
    obtain ⟨x, hx, rfl⟩ := List.mem_map.mp hy
    rw [h x hx, meanQ_const l c h hne, sub_self]
    ring
  rw [sum_const_list _ 0 hz, mul_zero, zero_div]

/-! ### Claim theorems -/

/-- The one-block scenario log of claim C1: a header, one data row, and a
package-summary row. -/
def c1Log : String :=
  "Core CPU Avg_MHz Busy% Bzy_MHz C6%\n0 3 1500 20.0 1800 75.5\n- - - - - -"

/-- C1: on the scenario log with header `Core CPU Avg_MHz Busy% Bzy_MHz C6%`,
data row `0 3 1500 20.0 1800 75.5` and package row `- - - - - -`,
`parse_turbostat_log` yields exactly one sample with `cpu = 3`,
`avg_mhz = 1500`, `busy_percent = 20`, `bzy_mhz = 1800`, `c6_percent = 75.5`,
`c1_percent = 0`, `c7_percent = 0`, and both power fields absent; the
package row produces no sample. -/
theorem c1_scenario_one_sample :
    parse_turbostat_log c1Log =
      [⟨none, 3, 1500, 20, 1800, none, none, 0, 151 / 2, 0⟩] := by
  simp +decide [c1Log, parse_turbostat_log, splitSections, splitAux, lookaheadHdr,
    parseLoop, parseSection, findHeader, linesOf, linesAux, strip, isSpace,
    tokens, tokensAux, containsSub, isPrefixL, rowsLoop, lineToSample,
    colMapGet?, lowerTok, mkSampleFields, floatField, optFloatField,
    parseInt, parseFloat, parseMantissa, spanDigits, digitVal?, natOfDigits,
    List.enum, List.enumFrom, List.find?, List.dropWhile, Option.map,
    Option.bind, Option.getD, Char.toLower]
  norm_num

/-- C3: a data row on which numeric parsing fails is dropped silently, and
its presence does not change the samples produced from the other rows of
the block. -/
theorem c3_malformed_row_independent (columns : List (List Char))
    (xs ys : List (List Char)) (r : List Char)
    (h : lineToSample columns r = none) :
    rowsLoop columns (xs ++ r :: ys) = rowsLoop columns (xs ++ ys) := by
  induction xs with
  | nil => simp [rowsLoop, h]
  | cons x xs ih =>
    cases hx : lineToSample columns x with
    | none => simpa [rowsLoop, hx] using ih
    | some t => simpa [rowsLoop, hx] using ih

/-- Witness for C3 at a concrete malformed row (`0 zz` fails `int`/`float`
parsing under a two-column header). -/
theorem c3_malformed_row_independent_witness :
    rowsLoop (tokens "Core CPU".data) ("0 1".data :: "0 zz".data :: ["0 2".data]) =
      rowsLoop (tokens "Core CPU".data) ("0 1".data :: ["0 2".data]) :=
  c3_malformed_row_independent (tokens "Core CPU".data) ["0 1".data] ["0 2".data]
    "0 zz".data (by decide)

/-- C6 (code bug): with an empty run list, `calculate_energy_savings`
evaluates `results.avg_c6_residency`, i.e. `statistics.mean` of an empty
list, which raises `StatisticsError` (modelled by `none`) instead of
returning a result with `net_savings_percent = 0`. -/
theorem c6_empty_runs_raises :
    calculate_energy_savings ⟨[], none⟩ 100 (85 / 100) = none := rfl

/-- C10: when every run's checkpoint latency is non-positive,
`avg_checkpoint_ms` is 0 (not undefined); likewise for `avg_restore_ms`;
and when all runs failed both phases, `total_overhead_ms` is 0. -/
theorem c10_all_failed_zero (res : ExperimentResults) :
    ((∀ r ∈ res.runs, r.checkpoint_ms ≤ 0) → avg_checkpoint_ms res = 0) ∧
    ((∀ r ∈ res.runs, r.restore_ms ≤ 0) → avg_restore_ms res = 0) ∧
    ((∀ r ∈ res.runs, r.checkpoint_ms ≤ 0 ∧ r.restore_ms ≤ 0) →
      total_overhead_ms res = 0) := by
  have hck : (∀ r ∈ res.runs, r.checkpoint_ms ≤ 0) → avg_checkpoint_ms res = 0 := by
    intro h
    have hnil : (res.runs.map (fun r => r.checkpoint_ms)).filter (fun x => 0 < x) = [] := by
      rw [List.filter_eq_nil_iff]
      intro a ha
      obtain ⟨r, hr, rfl⟩ := List.mem_map.mp ha
      simpa using not_lt.mpr (h r hr)
    simp [avg_checkpoint_ms, hnil]
  have hrs : (∀ r ∈ res.runs, r.restore_ms ≤ 0) → avg_restore_ms res = 0 := by
    intro h
    have hnil : (res.runs.map (fun r => r.restore_ms)).filter (fun x => 0 < x) = [] := by
      rw [List.filter_eq_nil_iff]
      intro a ha
      obtain ⟨r, hr, rfl⟩ := List.mem_map.mp ha
      simpa using not_lt.mpr (h r hr)
    simp [avg_restore_ms, hnil]
  refine ⟨hck, hrs, fun h => ?_⟩
  rw [total_overhead_ms, hck (fun r hr => (h r hr).1), hrs (fun r hr => (h r hr).2)]
  norm_num

/-- The single all-failed run used to witness C10. -/
def c10Run : ExperimentRun := ⟨1, 0, -3, 60, 40⟩

/-- Witness for C10 on a one-run experiment whose both phases failed. -/
theorem c10_all_failed_zero_witness :
    avg_checkpoint_ms ⟨[c10Run], none⟩ = 0 ∧
    avg_restore_ms ⟨[c10Run], none⟩ = 0 ∧
    total_overhead_ms ⟨[c10Run], none⟩ = 0 :=
  ⟨(c10_all_failed_zero ⟨[c10Run], none⟩).1 (by intro r hr; simp at hr; simp [hr, c10Run]),
   (c10_all_failed_zero ⟨[c10Run], none⟩).2.1 (by intro r hr; simp at hr; simp [hr, c10Run]),
   (c10_all_failed_zero ⟨[c10Run], none⟩).2.2 (by intro r hr; simp at hr; simp [hr, c10Run])⟩

/-- The log used to refute C9: the CPU token `-5` is neither `-` nor `-1`,
so the row is kept with a negative CPU index. -/
def c9Log : String := "Core CPU Avg_MHz\n0 -5 1500"

/-- C9 counterexample: `parse_turbostat_log` produces a sample whose `cpu`
index is the negative integer `-5`; only the exact placeholder `-` (and an
explicit `-1`) are skipped. -/
theorem c9_negative_cpu_counterexample :
    parse_turbostat_log c9Log = [⟨none, -5, 1500, 0, 0, none, none, 0, 0, 0⟩] ∧
    (⟨none, -5, 1500, 0, 0, none, none, 0, 0, 0⟩ : TurbostatSample).cpu < 0 := by
  constructor
  · simp +decide [c9Log, parse_turbostat_log, splitSections, splitAux, lookaheadHdr,
      parseLoop, parseSection, findHeader, linesOf, linesAux, strip, isSpace,
      tokens, tokensAux, containsSub, isPrefixL, rowsLoop, lineToSample,
      colMapGet?, lowerTok, mkSampleFields, floatField, optFloatField,
      parseInt, parseFloat, parseMantissa, spanDigits, digitVal?, natOfDigits,
      List.enum, List.enumFrom, List.find?, List.dropWhile, Option.map,
      Option.bind, Option.getD, Char.toLower]
  · decide

/-- C9 amended: every sample produced by `parse_turbostat_log` has a `cpu`
index different from `-1`, and a row whose token at the CPU position is the
placeholder `-` never produces a sample. -/
theorem c9_amended (content : String) :
    (∀ s ∈ parse_turbostat_log content, s.cpu ≠ -1) ∧
    (∀ (columns : List (List Char)) (line : List Char),
      (tokens line).get? ((colMapGet? columns "cpu".data).getD 1) = some "-".data →
      lineToSample columns line = none) := by
  constructor
  · intro s hs
    rw [parse_turbostat_log, parseLoop_eq, List.nil_append, List.mem_flatten] at hs
    obtain ⟨l, hl, hsl⟩ := hs
    obtain ⟨sec, _, rfl⟩ := List.mem_map.mp hl
    rw [parseSection] at hsl
    rcases hfh : findHeader (linesOf (strip sec)) with - | ⟨hdr, rest⟩
    · rw [hfh] at hsl
      simp at hsl
    · rw [hfh] at hsl
      obtain ⟨l', -, hsome⟩ := mem_rowsLoop hsl
      exact lineToSample_cpu_ne hsome
  · intro columns line h
    unfold lineToSample
    split
    · rfl
    · split
      · rfl
      · rw [h]
        simp

/-- Witness for C9 on a concrete aggregate row whose CPU token is `-`. -/
theorem c9_amended_witness :
    lineToSample (tokens "Core CPU Avg_MHz".data) "0 - 1500".data = none :=
  (c9_amended "").2 (tokens "Core CPU Avg_MHz".data) "0 - 1500".data (by decide)

/-- C2 amended: `parse_turbostat_log` is the concatenation of the per-block
parses of the `re.split` sections, each block interpreted only under its own
header, and the sections partition the input text (rejoining them with the
removed newlines restores it). -/
theorem c2_amended_split_structure (content : String) :
    parse_turbostat_log content =
      ((splitSections content.data).map parseSection).flatten ∧
    joinNl (splitSections content.data) = content.data := by
  constructor
  · rw [parse_turbostat_log, parseLoop_eq, List.nil_append]
  · rw [splitSections, joinNl_splitAux]
    rfl

/-- The log used to refute C2's splitting rule: the third line contains both
a `Core` and a `CPU` token but does not start with them, so the regex
`\n(?=\s*Core\s+CPU)` does not split there. -/
def c2Log : String := "Core CPU\n0 1\nx Core CPU\n0 2"

/-- C2 counterexample: the code's split differs from the spec-worded split
(cut before every line containing both a `Core` and a `CPU` token): on
`c2Log` the code keeps `x Core CPU` inside the first block and parses the
final row `0 2` under the first header, while the spec-worded split starts
a new block at `x Core CPU` whose three-column header then rejects `0 2`
as too short. -/
theorem c2_split_rule_counterexample :
    parse_turbostat_log c2Log ≠ parse_spec_split c2Log := by
  have h1 : parse_turbostat_log c2Log =
      [⟨none, 1, 0, 0, 0, none, none, 0, 0, 0⟩,
       ⟨none, 2, 0, 0, 0, none, none, 0, 0, 0⟩] := by
    simp +decide [c2Log, parse_turbostat_log, splitSections, splitAux, lookaheadHdr,
      parseLoop, parseSection, findHeader, linesOf, linesAux, strip, isSpace,
      tokens, tokensAux, containsSub, isPrefixL, rowsLoop, lineToSample,
      colMapGet?, lowerTok, mkSampleFields, floatField, optFloatField,
      parseInt, parseFloat, parseMantissa, spanDigits, digitVal?, natOfDigits,
      List.enum, List.enumFrom, List.find?, List.dropWhile, Option.map,
      Option.bind, Option.getD, Char.toLower]
  have h2 : parse_spec_split c2Log = [⟨none, 1, 0, 0, 0, none, none, 0, 0, 0⟩] := by
    simp +decide [c2Log, parse_spec_split, specBlocksAux, isHdrLineSpec, joinNl,
      parseSection, findHeader, linesOf, linesAux, strip, isSpace,
      tokens, tokensAux, containsSub, isPrefixL, rowsLoop, lineToSample,
      colMapGet?, lowerTok, mkSampleFields, floatField, optFloatField,
      parseInt, parseFloat, parseMantissa, spanDigits, digitVal?, natOfDigits,
      List.enum, List.enumFrom, List.find?, List.dropWhile, Option.map,
      Option.bind, Option.getD, Char.toLower, List.contains]
  rw [h1, h2]
  simp

/-- The sample used to refute C4 (any single sample works). -/
def c4Sample : TurbostatSample := ⟨none, 0, 0, 0, 0, none, none, 0, 0, 0⟩

/-- C4 counterexample: with the empty allow-list, the claim-side filter
leaves zero samples, yet `analyze_samples` does not return the error
outcome — Python's `if cpu_filter:` is falsy on `[]`, so no filtering
happens at all. -/
theorem c4_empty_allowlist_counterexample :
    (analyze_samples [c4Sample] (some [])).isErr = false ∧
    [c4Sample].filter (fun s => ([] : List ℤ).contains s.cpu) = [] := by
  exact ⟨rfl, rfl⟩

/-- C4 amended: for every NON-EMPTY allow-list the filter is applied before
any statistic (analysing with the filter equals pre-filtering and analysing
unfiltered), and the error outcome is returned exactly when the filtered
set is empty; an empty allow-list is treated as no filter at all. -/
theorem c4_amended_filter_before_stats (l : List TurbostatSample) (f : List ℤ)
    (h : f ≠ []) :
    analyze_samples l (some f) =
      analyze_samples (l.filter (fun s => f.contains s.cpu)) none ∧
    ((analyze_samples l (some f)).isErr = true ↔
      l.filter (fun s => f.contains s.cpu) = []) ∧
    analyze_samples l (some []) = analyze_samples l none := by
  obtain ⟨a, as, rfl⟩ : ∃ a as, f = a :: as := by
    cases f with
    | nil => exact absurd rfl h
    | cons a as => exact ⟨a, as, rfl⟩
  refine ⟨rfl, ?_, rfl⟩
  have key : ∀ m : List TurbostatSample,
      (analyze_samples m none).isErr = true ↔ m = [] := by
    intro m
    cases m with
    | nil => simp [analyze_samples, AnalysisResult.isErr]
    | cons b bs => simp [analyze_samples, AnalysisResult.isErr]
  have h1 : analyze_samples l (some (a :: as)) =
      analyze_samples (l.filter (fun s => (a :: as).contains s.cpu)) none := rfl
  rw [h1]
  exact key _

/-- The sample used to witness C4's amended statement. -/
def c4wSample : TurbostatSample := ⟨none, 7, 0, 0, 0, none, none, 0, 0, 0⟩

/-- Witness for C4's amended statement on a concrete allow-list `[7]`. -/
theorem c4_amended_filter_before_stats_witness :
    analyze_samples [c4wSample] (some [7]) =
      analyze_samples ([c4wSample].filter (fun s => ([7] : List ℤ).contains s.cpu)) none :=
  (c4_amended_filter_before_stats [c4wSample] [7] (by decide)).1

/-- C7: when no baseline is present, the printed report shows no
residency-improvement figure at all, and the exported CSV summary contains
no improvement metric row (its metric names are exactly the nine listed
ones) — the improvement is never silently reported as `avg_residency - 0`. -/
theorem c7_no_baseline_no_improvement (results : ExperimentResults)
    (h : results.baseline_c6 = none) :
    printedImprovement results = none ∧
    (∀ rows, export_summary_rows results = some rows →
      rows.map (fun t => t.1) =
        ["num_runs", "avg_checkpoint_ms", "avg_restore_ms", "total_overhead_ms",
         "avg_c6_residency", "baseline_c6", "net_energy_savings_j",
         "net_energy_savings_percent", "break_even_idle_s"]) := by
  constructor
  · rw [printedImprovement, h]
  · intro rows hr
    rcases ha : avg_c6_residency results with - | a
    · rw [export_summary_rows, ha] at hr
      simp at hr
    · rcases hc : calculate_energy_savings results 100 (85 / 100) with - | e
      · rw [export_summary_rows, ha, hc] at hr
        simp at hr
      · rw [export_summary_rows, ha, hc] at hr
        simp only [Option.some.injEq] at hr
        rw [← hr]
        rfl

/-- The single run used to witness C7. -/
def c7Run : ExperimentRun := ⟨1, 10, 10, 60, 50⟩

/-- Witness for C7 on a one-run experiment with no baseline. -/
theorem c7_no_baseline_no_improvement_witness :
    printedImprovement ⟨[c7Run], none⟩ = none :=
  (c7_no_baseline_no_improvement ⟨[c7Run], none⟩ rfl).1

/-- First sample used to refute C5 (`c6_percent = 0`). -/
def c5SampleA : TurbostatSample := ⟨none, 0, 0, 0, 0, none, none, 0, 0, 0⟩

/-- Second sample used to refute C5 (`c6_percent = 2`). -/
def c5SampleB : TurbostatSample := ⟨none, 0, 0, 0, 0, none, none, 0, 2, 0⟩

/-- C5 counterexample: on the two c6 values 0 and 2 the aggregate `c6_std`
is `statistics.stdev`, the Bessel-corrected SAMPLE standard deviation
`√2`, not the population standard deviation `√1 = 1`. -/
theorem c5_population_stdev_counterexample :
    aggC6Std (analyze_samples [c5SampleA, c5SampleB] none) ≠
      popStdev ([c5SampleA, c5SampleB].map (fun s => s.c6_percent)) := by
  have h1 : aggC6Std (analyze_samples [c5SampleA, c5SampleB] none) =
      stdevQ [0, 2] := rfl
  have hsv : sampleVar [(0 : ℚ), 2] = 2 := by
    simp [sampleVar, meanQ]
    norm_num
  have h2 : stdevQ [0, 2] = Real.sqrt 2 := by
    rw [stdevQ, hsv]
    norm_num
  have hmap : ([c5SampleA, c5SampleB].map (fun s => s.c6_percent)) = [0, 2] := rfl
  have hpv : popVar [(0 : ℚ), 2] = 1 := by
    simp [popVar, meanQ]
    norm_num
  have h3 : popStdev ([c5SampleA, c5SampleB].map (fun s => s.c6_percent)) = 1 := by
    rw [hmap, popStdev, hpv]
    simp
  rw [h1, h2, h3]
  exact irrational_sqrt_two.ne_one

/-- C5 amended: for a nonempty unfiltered sample list the aggregate
`c6_std` is the SAMPLE (Bessel-corrected) standard deviation of the
`c6_percent` values when there are at least 2 samples and 0 otherwise; in
particular it is exactly 0 whenever all samples share one `c6_percent`
value (and 0, not an error, for a single sample). -/
theorem c5_amended_sample_stdev (l : List TurbostatSample) (c0 : ℚ) (h : l ≠ []) :
    aggC6Std (analyze_samples l none) =
      (if 1 < l.length then stdevQ (l.map (fun s => s.c6_percent)) else 0) ∧
    ((∀ s ∈ l, s.c6_percent = c0) → aggC6Std (analyze_samples l none) = 0) := by
  obtain ⟨a, as, rfl⟩ : ∃ a as, l = a :: as := by
    cases l with
    | nil => exact absurd rfl h
    | cons a as => exact ⟨a, as, rfl⟩
  have hmain : aggC6Std (analyze_samples (a :: as) none) =
      if 1 < (a :: as).length then
        stdevQ ((a :: as).map (fun s => s.c6_percent)) else 0 := by
    have e1 : aggC6Std (analyze_samples (a :: as) none) =
        if 1 < ((a :: as).map (fun s => s.c6_percent)).length then
          stdevQ ((a :: as).map (fun s => s.c6_percent)) else 0 := rfl
    rw [e1, List.length_map]
  refine ⟨hmain, fun hall => ?_⟩
  rw [hmain]
  cases as with
  | nil => simp
  | cons b bs =>
    have hne' : ((a :: b :: bs).map (fun s => s.c6_percent)) ≠ [] := by simp
    have hall' : ∀ x ∈ (a :: b :: bs).map (fun s => s.c6_percent), x = c0 := by
      intro x hx
      obtain ⟨s, hs, rfl⟩ := List.mem_map.mp hx
      exact hall s hs
    have hvar := sampleVar_const _ c0 hall' hne'
    rw [if_pos (by simp), stdevQ, hvar]
    simp

/-- The single sample used to witness C5's amended statement. -/
def c5wSample : TurbostatSample := ⟨none, 1, 0, 0, 0, none, none, 0, 5, 0⟩

/-- Witness for C5's amended statement: one sample with `c6_percent = 5`
gives aggregate `c6_std = 0`. -/
theorem c5_amended_sample_stdev_witness :
    aggC6Std (analyze_samples [c5wSample] none) = 0 :=
  (c5_amended_sample_stdev [c5wSample] 5 (by simp)).2
    (by intro s hs; simp at hs; rw [hs]; rfl)

/-- The sample used to refute C8: `pkg_watt` is PRESENT with value 0. -/
def c8ZeroSample : TurbostatSample := ⟨none, 0, 1000, 10, 1200, some 0, some 15, 1, 2, 3⟩

/-- C8 counterexample: `s.pkg_watt or ''` writes the empty string for the
present value `0.0` (falsy in Python), so the cell is empty although the
field is not absent, and re-reading the row loses the field. -/
theorem c8_zero_power_counterexample :
    (exportRow c8ZeroSample).get? 7 = some (Cell.str "") ∧
    c8ZeroSample.pkg_watt = some 0 ∧
    rereadSample (exportRow c8ZeroSample) ≠
      some { c8ZeroSample with timestamp := none } := by
  refine ⟨rfl, rfl, ?_⟩
  intro hc
  simp [exportRow, rereadSample, cellNum?, pyOrCell, c8ZeroSample] at hc

/-- C8 amended: a power cell is the empty string exactly when the field is
absent OR its value is 0 (Python falsiness), and re-reading an exported row
reproduces the sample (timestamps are not exported) whenever neither power
field is present with value 0. -/
theorem c8_amended_empty_iff_absent_or_zero (s : TurbostatSample) :
    (pyOrCell s.pkg_watt = Cell.str "" ↔ s.pkg_watt = none ∨ s.pkg_watt = some 0) ∧
    (pyOrCell s.core_watt = Cell.str "" ↔ s.core_watt = none ∨ s.core_watt = some 0) ∧
    (s.pkg_watt ≠ some 0 → s.core_watt ≠ some 0 →
      rereadSample (exportRow s) = some { s with timestamp := none }) := by
  have hiff : ∀ x : Option ℚ, pyOrCell x = Cell.str "" ↔ x = none ∨ x = some 0 := by
    intro x
    cases x with
    | none => simp [pyOrCell]
    | some v =>
      by_cases hv : v = 0
      · simp [pyOrCell, hv]
      · simp [pyOrCell, hv]
  refine ⟨hiff _, hiff _, ?_⟩
  intro h1 h2
  obtain ⟨t, cpu, avg, busy, bzy, pw, cw, p1, p6, p7⟩ := s
  cases pw with
  | none =>
    cases cw with
    | none => rfl
    | some w =>
      have hw : ¬w = 0 := by simpa using h2
      simp [exportRow, pyOrCell, rereadSample, cellNum?, hw]
  | some v =>
    have hv : ¬v = 0 := by simpa using h1
    cases cw with
    | none => simp [exportRow, pyOrCell, rereadSample, cellNum?, hv]
    | some w =>
      have hw : ¬w = 0 := by simpa using h2
      simp [exportRow, pyOrCell, rereadSample, cellNum?, hv, hw]

/-- The sample used to witness C8's amended statement. -/
def c8wSample : TurbostatSample := ⟨none, 2, 100, 5, 200, some 3, none, 1, 50, 0⟩

/-- Witness for C8's amended statement: a sample with a nonzero present
`pkg_watt` and an absent `core_watt` round-trips through the CSV row. -/
theorem c8_amended_empty_iff_absent_or_zero_witness :
    rereadSample (exportRow c8wSample) = some { c8wSample with timestamp := none } :=
  (c8_amended_empty_iff_absent_or_zero c8wSample).2.2
    (by simp [c8wSample]) (by simp [c8wSample])
